import Mathlib

/-!
# Verification of the supabase-mcp SSE session-transport registry

Shallow embedding of `run_supabase_mcp_server.js` (and its near-identical
entrypoint variants): the JS `Map` used as the session registry
(`activeSseTransports`), the SSE connection endpoint (`app.get(serverSsePath)`),
the message endpoint (`app.post(serverMessagesPath)`), the global Express error
handler, the `gracefulShutdown` routine with its watchdog timer, and the
command-line/environment configuration resolution of the CLI variant.

Transports are identified by an abstract connection id (`ConnId`); the
collaborating transport library is abstracted by outcome parameters
(whether `mcpServer.connect` or `transport.handlePostMessage` throws and
whether response headers had been written by then).
-/

abbrev SessionId := String
abbrev ConnId := Nat

/-- The session registry: a JS `Map` from session id to transport,
modelled as an insertion-ordered association list (values are `ConnId`
since transports are abstract). -/
abbrev Registry := List (SessionId × ConnId)

/-- JS `Map.prototype.set`: updates the value in place if the key exists,
otherwise appends the new entry. -/
def mapSet (m : Registry) (k : SessionId) (v : ConnId) : Registry :=
  match m with
  | [] => [(k, v)]
  | (k', v') :: rest => if k' = k then (k, v) :: rest else (k', v') :: mapSet rest k v

/-- JS `Map.prototype.get` (returning `none` for `undefined`). -/
def mapGet (m : Registry) (k : SessionId) : Option ConnId :=
  match m with
  | [] => none
  | (k', v') :: rest => if k' = k then some v' else mapGet rest k

/-- JS `Map.prototype.delete`: removes the entry under `k` if present
(keys are unique in a JS `Map`, so removing the first occurrence suffices). -/
def mapDelete (m : Registry) (k : SessionId) : Registry :=
  match m with
  | [] => []
  | (k', v') :: rest => if k' = k then rest else (k', v') :: mapDelete rest k

/-- An HTTP response observable on one request: either a plain status-code
response sent by the handler itself, or a response (stream headers / POST
reply) written by the delegated transport call. -/
inductive Resp
  | status (n : Nat)
  | delegated
deriving DecidableEq, Repr

/-- Outcome of `await mcpServer.connect(transport)` as seen by the GET
handler: it either succeeds (establishing the SSE stream, i.e. writing the
response headers) or throws, with `headersSent` recording whether response
headers had been written before the throw. -/
inductive ConnectOutcome
  | success
  | failure (headersSent : Bool)
deriving DecidableEq, Repr

/-- What the `app.get(serverSsePath)` handler did for one request. -/
structure GetResult where
  /-- Responses sent on this request (by the handler or the connect call). -/
  responses : List Resp
  /-- The registry after the handler body ran. -/
  registry : Registry
  /-- Whether the `req.on(close)` disconnect hook was registered. -/
  hookRegistered : Bool
deriving DecidableEq, Repr

/-- The `app.get(serverSsePath, ...)` handler of `run_supabase_mcp_server.js`
(lines 47-83). `mcpUp` is whether `mcpServer` is non-null, `ctorThrows`
whether `new SSEServerTransport(...)` throws, `c` the transport created for
this request, `s` its `transport.sessionId` (`""` models the falsy
missing-id case), `co` the outcome of `mcpServer.connect(transport)`. -/
def getHandler (mcpUp : Bool) (reg : Registry) (ctorThrows : Bool)
    (c : ConnId) (s : SessionId) (co : ConnectOutcome) : GetResult :=
  if mcpUp = false then
    { responses := [.status 503], registry := reg, hookRegistered := false }
  else if ctorThrows then
    { responses := [.status 500], registry := reg, hookRegistered := false }
  else if s = "" then
    { responses := [.status 500], registry := reg, hookRegistered := false }
  else
    let reg' := mapSet reg s c
    match co with
    | .success => { responses := [.delegated], registry := reg', hookRegistered := true }
    | .failure hs =>
        { responses := if hs then [.delegated] else [.status 500],
          registry := reg', hookRegistered := true }

/-- The value of `req.query.sessionId` in Express: absent, a string, or a
non-string (array/object, e.g. from a repeated query parameter). -/
inductive QueryVal
  | absent
  | strVal (s : String)
  | arrVal (l : List String)
deriving DecidableEq, Repr

/-- Outcome of `await transport.handlePostMessage(req, res, req.body)`:
either it completes (writing the HTTP response itself), or it throws, with
`headersSent` recording whether it had written response headers first. -/
inductive HpmOutcome
  | ok
  | err (headersSent : Bool)
deriving DecidableEq, Repr

/-- What the `app.post(serverMessagesPath)` handler did for one request. -/
structure PostResult where
  /-- Responses sent on this request (by the handler or the transport). -/
  responses : List Resp
  /-- The registry after the handler body ran. -/
  registry : Registry
  /-- Transports whose `handlePostMessage` was invoked. -/
  hpmCalls : List ConnId
deriving DecidableEq, Repr

/-- The `app.post(serverMessagesPath, ...)` handler of
`run_supabase_mcp_server.js` (lines 85-116). The validation
`!sessionId || typeof sessionId !== `string`` rejects an absent value, a
non-string value, and the falsy empty string. -/
def postHandler (mcpUp : Bool) (reg : Registry) (sid : QueryVal)
    (hpm : HpmOutcome) : PostResult :=
  if mcpUp = false then
    { responses := [.status 503], registry := reg, hpmCalls := [] }
  else
    match sid with
    | .absent => { responses := [.status 400], registry := reg, hpmCalls := [] }
    | .arrVal _ => { responses := [.status 400], registry := reg, hpmCalls := [] }
    | .strVal s =>
      if s = "" then
        { responses := [.status 400], registry := reg, hpmCalls := [] }
      else
        match mapGet reg s with
        | none => { responses := [.status 404], registry := reg, hpmCalls := [] }
        | some c =>
          match hpm with
          | .ok => { responses := [.delegated], registry := reg, hpmCalls := [c] }
          | .err hs =>
              { responses := if hs then [.delegated] else [.status 500],
                registry := reg, hpmCalls := [c] }

/-- The global Express error handler (lines 118-123): sends a 500 response
only if no response headers have been sent yet. -/
def globalErrorHandler (headersSent : Bool) : List Resp :=
  if headersSent then [] else [.status 500]

/-! ## Connection lifecycle as an event machine

Connection-open (`GET /sse`) and disconnect (`req.on(close)` firing) events
drive the registry. The disconnect hook is a closure capturing the
connection's own `sessionId` and `transport`: it deletes that id from the
registry and closes that transport. -/

/-- A lifecycle event: a stream-open request (with the session id the new
transport generated and the connect outcome), or the firing of a
connection's disconnect (`close`) event. -/
inductive Event
  | openConn (c : ConnId) (s : SessionId) (co : ConnectOutcome)
  | disconnect (c : ConnId)
deriving DecidableEq, Repr

/-- Server state tracked across lifecycle events. -/
structure SrvState where
  /-- The `activeSseTransports` map. -/
  registry : Registry
  /-- Connections whose open succeeded (id registered, hook wired) and whose
  disconnect event has not fired yet, with their captured session ids. -/
  openConns : List (ConnId × SessionId)
  /-- Transports closed via their disconnect hook. -/
  closed : List ConnId
deriving DecidableEq, Repr

def initState : SrvState := { registry := [], openConns := [], closed := [] }

/-- The session id a still-open connection's disconnect hook captured. -/
def lookupConn : List (ConnId × SessionId) → ConnId → Option SessionId
  | [], _ => none
  | (c', s') :: rest, c => if c' = c then some s' else lookupConn rest c

/-- Drop a connection from the open set once its disconnect event fired. -/
def removeConn : List (ConnId × SessionId) → ConnId → List (ConnId × SessionId)
  | [], _ => []
  | (c', s') :: rest, c =>
    if c' = c then removeConn rest c else (c', s') :: removeConn rest c

/-- One lifecycle event. An open runs the GET handler (with `mcpServer`
initialized and the transport constructor not throwing); the hook is
registered exactly when a non-empty session id was obtained, even if the
subsequent connect fails. A disconnect runs the hook the open registered:
`activeSseTransports.delete(sessionId); transport.close()`. A disconnect
for a connection with no registered hook is a no-op. -/
def step (st : SrvState) (e : Event) : SrvState :=
  match e with
  | .openConn c s co =>
    let r := getHandler true st.registry false c s co
    if r.hookRegistered then
      { st with registry := r.registry, openConns := (c, s) :: st.openConns }
    else
      { st with registry := r.registry }
  | .disconnect c =>
    match lookupConn st.openConns c with
    | none => st
    | some s =>
      { registry := mapDelete st.registry s,
        openConns := removeConn st.openConns c,
        closed := c :: st.closed }

/-- Run a sequence of lifecycle events. -/
def run (st : SrvState) (es : List Event) : SrvState := es.foldl step st

/-- Session ids of the open events that succeed in yielding a non-empty id
(the only ones that register an entry). -/
def openSids (es : List Event) : List SessionId :=
  es.filterMap fun e =>
    match e with
    | .openConn _ s _ => if s = "" then none else some s
    | .disconnect _ => none

/-- Connection ids of the open events that succeed in yielding a non-empty
session id. -/
def openCids (es : List Event) : List ConnId :=
  es.filterMap fun e =>
    match e with
    | .openConn c s _ => if s = "" then none else some c
    | .disconnect _ => none

/-! ## Graceful shutdown -/

/-- What one run of `gracefulShutdown` (lines 173-192) did. `mcpHasClose`
is whether `mcpServer.close` exists; `closeErr` tells which transports'
`close()` calls reject (each rejection is caught and logged inside the
`forEach` callback, so it influences nothing). -/
structure ShutdownRun where
  /-- Transports on which `close()` was invoked, in registry order. -/
  closeAttempts : List ConnId
  /-- The registry after `activeSseTransports.clear()`. -/
  registry : Registry
  /-- Whether `mcpServer.close()` was invoked. -/
  mcpCloseCalled : Bool
  /-- Whether `httpServer.close(...)` was invoked. -/
  httpCloseCalled : Bool
  /-- Watchdog timers scheduled by `setTimeout(..., 10000)` in this run. -/
  watchdogsSet : Nat
deriving DecidableEq, Repr

/-- `gracefulShutdown`: iterate the registry invoking `close()` on every
transport (rejections caught per handle), clear the registry, close the MCP
server if it exposes `close`, close the HTTP server, and schedule the 10s
watchdog. -/
def gracefulShutdown (reg : Registry) (mcpHasClose : Bool)
    (closeErr : ConnId → Bool) : ShutdownRun :=
  { closeAttempts := reg.map Prod.snd,
    registry := [],
    mcpCloseCalled := mcpHasClose,
    httpCloseCalled := true,
    watchdogsSet := 1 }

/-- Two termination signals: `process.on(SIGINT/SIGTERM, gracefulShutdown)`
re-invokes `gracefulShutdown` on every signal. Signal handlers run from the
event loop, and the first run's synchronous prefix (`forEach` issuing the
closes, then `clear()`) completes before its first `await`, so the second
run sees the already-drained registry. -/
def twoSignals (reg : Registry) (mcpHasClose : Bool)
    (closeErr : ConnId → Bool) : ShutdownRun × ShutdownRun :=
  let r1 := gracefulShutdown reg mcpHasClose closeErr
  (r1, gracefulShutdown r1.registry mcpHasClose closeErr)

/-- The watchdog duration: `setTimeout(..., 10000)`, i.e. 10 time units. -/
def watchdogDuration : Nat := 10

/-- How the process ends (or fails to end) once shutdown was initiated. -/
inductive ProcExit
  | exited (code : Nat)
  | hung
deriving DecidableEq, Repr

/-- The tail of `gracefulShutdown` after the drain (lines 182-191): first
`await mcpServer.close()` (its rejection is caught, so only a close that
never settles blocks; a missing `close` method skips the await), and only
after that resolves are `httpServer.close(cb)` invoked and the watchdog
`setTimeout(..., 10000)` armed. `mcpCloseResolves = false` models a
protocol-server close that never settles: the watchdog is never armed and
the process never exits. Otherwise `socketCloseDelay` is the delay from
arming until the socket-close callback (`process.exit(0)`) fires, `none`
if it never fires; the watchdog (`process.exit(1)`) fires at
`watchdogDuration`, and the earlier of the two wins. -/
def shutdownOutcome (mcpCloseResolves : Bool) (socketCloseDelay : Option Nat) : ProcExit :=
  if mcpCloseResolves = false then
    ProcExit.hung
  else
    match socketCloseDelay with
    | none => ProcExit.exited 1
    | some d => if d < watchdogDuration then ProcExit.exited 0 else ProcExit.exited 1

/-! ## Configuration resolution (CLI variant, `src/unnamed/part_000`) -/

/-- `process.env.X ?? cliX` for the string options (access token, project
ref, API URL): the nullish-coalescing operator takes the environment value
whenever it is present. -/
def resolveStringOpt (env cli : Option String) : Option String :=
  match env with
  | some v => some v
  | none => cli

/-- `process.env.SUPABASE_READ_ONLY === 'true' ? true : cliReadOnly`
(part_000 line 36): the environment wins only when it is exactly `true`;
any other environment value (present or not) defers to the CLI value. -/
def resolveReadOnly (env : Option String) (cli : Bool) : Bool :=
  if env = some "true" then true else cli

/-- The boolean an environment value denotes, per the env-only variant's
own reading `process.env.SUPABASE_READ_ONLY === 'true'`
(`run_supabase_mcp_server.js` line 17). -/
def envReadOnly (env : Option String) : Bool :=
  env = some "true"

/-- The registry/lifecycle invariant: registry keys are exactly the session
ids of open connections; keys, open session ids and open connection ids are
duplicate-free. -/
def RegInv (st : SrvState) : Prop :=
  (∀ s, (mapGet st.registry s).isSome = true ↔ s ∈ st.openConns.map Prod.snd)
  ∧ (st.registry.map Prod.fst).Nodup
  ∧ (st.openConns.map Prod.snd).Nodup
  ∧ (st.openConns.map Prod.fst).Nodup

/-! ## Lemmas about the JS Map model -/

theorem mapGet_mapSet (m : Registry) (k : SessionId) (v : ConnId) (k' : SessionId) :
    mapGet (mapSet m k v) k' = if k' = k then some v else mapGet m k' := by
  induction m with
  | nil =>
    rcases eq_or_ne k' k with h | h
    · subst h; simp [mapSet, mapGet]
    · simp [mapSet, mapGet, h, h.symm]
  | cons p rest ih =>
    obtain ⟨k₁, v₁⟩ := p
    rcases eq_or_ne k₁ k with h1 | h1
    · subst h1
      rcases eq_or_ne k' k₁ with h2 | h2
      · subst h2; simp [mapSet, mapGet]
      · simp [mapSet, mapGet, h2, h2.symm]
    · rcases eq_or_ne k' k₁ with h2 | h2
      · subst h2
        simp [mapSet, mapGet, h1, h1.symm, ih]
      · simp [mapSet, mapGet, h1, h2, h2.symm, ih]

theorem mem_keys_mapSet (m : Registry) (k : SessionId) (v : ConnId) (a : SessionId) :
    a ∈ (mapSet m k v).map Prod.fst ↔ a ∈ m.map Prod.fst ∨ a = k := by
  induction m with
  | nil => simp [mapSet]
  | cons p rest ih =>
    obtain ⟨k₁, v₁⟩ := p
    by_cases h1 : k₁ = k <;> simp [mapSet, h1, ih] <;> tauto

theorem nodup_keys_mapSet (m : Registry) (k : SessionId) (v : ConnId)
    (h : (m.map Prod.fst).Nodup) : ((mapSet m k v).map Prod.fst).Nodup := by
  induction m with
  | nil => simp [mapSet]
  | cons p rest ih =>
    obtain ⟨k₁, v₁⟩ := p
    simp only [List.map_cons, List.nodup_cons] at h
    by_cases h1 : k₁ = k
    · subst h1; simp [mapSet, List.nodup_cons, h.1, h.2]
    · simp only [mapSet, if_neg h1, List.map_cons, List.nodup_cons]
      refine ⟨?_, ih h.2⟩
      rw [mem_keys_mapSet]
      rintro (hc | hc)
      · exact h.1 hc
      · exact h1 hc

theorem mapGet_isSome_iff_mem (m : Registry) (a : SessionId) :
    (mapGet m a).isSome = true ↔ a ∈ m.map Prod.fst := by
  induction m with
  | nil => simp [mapGet]
  | cons p rest ih =>
    obtain ⟨k₁, v₁⟩ := p
    rcases eq_or_ne k₁ a with h1 | h1
    · subst h1; simp [mapGet]
    · simp [mapGet, h1, h1.symm, ih]

theorem mapGet_eq_none_of_not_mem (m : Registry) (a : SessionId)
    (h : a ∉ m.map Prod.fst) : mapGet m a = none := by
  have h2 := (mapGet_isSome_iff_mem m a).not.mpr h
  cases hg : mapGet m a with
  | none => rfl
  | some v => exact absurd (by simp [hg]) h2

theorem mapDelete_sublist (m : Registry) (k : SessionId) : (mapDelete m k).Sublist m := by
  induction m with
  | nil => simp [mapDelete]
  | cons p rest ih =>
    obtain ⟨k₁, v₁⟩ := p
    rcases eq_or_ne k₁ k with h1 | h1
    · simp only [mapDelete, if_pos h1]
      exact List.sublist_cons_self _ _
    · simp only [mapDelete, if_neg h1]
      exact List.Sublist.cons₂ _ ih

theorem nodup_keys_mapDelete (m : Registry) (k : SessionId)
    (h : (m.map Prod.fst).Nodup) : ((mapDelete m k).map Prod.fst).Nodup :=
  h.sublist ((mapDelete_sublist m k).map Prod.fst)

theorem mapGet_mapDelete (m : Registry) (k k' : SessionId)
    (h : (m.map Prod.fst).Nodup) :
    mapGet (mapDelete m k) k' = if k' = k then none else mapGet m k' := by
  induction m with
  | nil => simp [mapDelete, mapGet]
  | cons p rest ih =>
    obtain ⟨k₁, v₁⟩ := p
    simp only [List.map_cons, List.nodup_cons] at h
    rcases eq_or_ne k₁ k with h1 | h1
    · subst h1
      rcases eq_or_ne k' k₁ with h2 | h2
      · subst h2
        simp [mapDelete, mapGet_eq_none_of_not_mem rest k' h.1]
      · simp [mapDelete, mapGet, h2, h2.symm]
    · rcases eq_or_ne k' k₁ with h2 | h2
      · subst h2
        simp [mapDelete, mapGet, h1, h1.symm, Ne.symm h1]
      · simp [mapDelete, mapGet, h1, h2, h2.symm, ih h.2]

/-! ## Lemmas about the open-connection bookkeeping -/

theorem lookupConn_mem (l : List (ConnId × SessionId)) (c : ConnId) (s : SessionId)
    (h : lookupConn l c = some s) : (c, s) ∈ l := by
  induction l with
  | nil => simp [lookupConn] at h
  | cons p rest ih =>
    obtain ⟨c₁, s₁⟩ := p
    rcases eq_or_ne c₁ c with h1 | h1
    · subst h1
      simp [lookupConn] at h
      subst h
      exact List.mem_cons_self _ _
    · simp only [lookupConn, if_neg h1] at h
      exact List.mem_cons_of_mem _ (ih h)

theorem removeConn_sublist (l : List (ConnId × SessionId)) (c : ConnId) :
    (removeConn l c).Sublist l := by
  induction l with
  | nil => simp [removeConn]
  | cons p rest ih =>
    obtain ⟨c₁, s₁⟩ := p
    rcases eq_or_ne c₁ c with h1 | h1
    · simp only [removeConn, if_pos h1]
      exact ih.trans (List.sublist_cons_self _ _)
    · simp only [removeConn, if_neg h1]
      exact List.Sublist.cons₂ _ ih

theorem removeConn_eq_self (l : List (ConnId × SessionId)) (c : ConnId)
    (h : c ∉ l.map Prod.fst) : removeConn l c = l := by
  induction l with
  | nil => rfl
  | cons p rest ih =>
    obtain ⟨c₁, s₁⟩ := p
    simp only [List.map_cons, List.mem_cons] at h
    push_neg at h
    have hne : c₁ ≠ c := fun hh => h.1 hh.symm
    simp only [removeConn, if_neg hne]
    rw [ih h.2]

theorem mem_sids_removeConn (l : List (ConnId × SessionId)) (c : ConnId) (s : SessionId)
    (hc : (l.map Prod.fst).Nodup) (hs : (l.map Prod.snd).Nodup)
    (hm : (c, s) ∈ l) (s' : SessionId) :
    s' ∈ (removeConn l c).map Prod.snd ↔ (s' ∈ l.map Prod.snd ∧ s' ≠ s) := by
  induction l with
  | nil => simp at hm
  | cons p rest ih =>
    obtain ⟨c₁, s₁⟩ := p
    simp only [List.map_cons, List.nodup_cons] at hc hs
    rcases eq_or_ne c₁ c with h1 | h1
    · subst h1
      have hps : s₁ = s := by
        rcases List.mem_cons.mp hm with he | he
        · injection he with he1 he2
          exact he2.symm
        · exact absurd (List.mem_map.mpr ⟨_, he, rfl⟩) hc.1
      subst hps
      have hr : removeConn ((c₁, s₁) :: rest) c₁ = rest := by
        simp only [removeConn, if_pos rfl]
        exact removeConn_eq_self rest c₁ hc.1
      rw [hr]
      constructor
      · intro hmem
        exact ⟨List.mem_cons_of_mem _ hmem, fun he => hs.1 (he ▸ hmem)⟩
      · rintro ⟨hmem, hne⟩
        rcases List.mem_cons.mp hmem with he | he
        · exact absurd he hne
        · exact he
    · have hm' : (c, s) ∈ rest := by
        rcases List.mem_cons.mp hm with he | he
        · injection he with he1 he2
          exact absurd he1.symm h1
        · exact he
      have hihs := ih hc.2 hs.2 hm'
      have hr : removeConn ((c₁, s₁) :: rest) c = (c₁, s₁) :: removeConn rest c := by
        simp only [removeConn, if_neg h1]
      rw [hr]
      simp only [List.map_cons, List.mem_cons]
      constructor
      · rintro (he | hmem)
        · subst he
          refine ⟨Or.inl rfl, fun he2 => ?_⟩
          have hsmem : s ∈ rest.map Prod.snd := List.mem_map.mpr ⟨(c, s), hm', rfl⟩
          exact hs.1 (he2 ▸ hsmem)
        · obtain ⟨h2, h3⟩ := hihs.mp hmem
          exact ⟨Or.inr h2, h3⟩
      · rintro ⟨he | hmem, hne⟩
        · exact Or.inl he
        · exact Or.inr (hihs.mpr ⟨hmem, hne⟩)

/-! ## The registry invariant (claim C1) -/

theorem reginv_init : RegInv initState := by
  refine ⟨fun s => ?_, ?_, ?_, ?_⟩ <;> simp [initState, mapGet]

theorem step_open_registered (st : SrvState) (c : ConnId) (s : SessionId)
    (co : ConnectOutcome) (hse : s ≠ "") :
    step st (.openConn c s co) =
      { st with registry := mapSet st.registry s c,
                openConns := (c, s) :: st.openConns } := by
  cases co with
  | success => simp [step, getHandler, hse]
  | failure hs => simp [step, getHandler, hse]

theorem step_open_noid (st : SrvState) (c : ConnId) (co : ConnectOutcome) :
    step st (.openConn c "" co) = st := by
  simp [step, getHandler]

theorem step_inv (st : SrvState) (e : Event) (hinv : RegInv st)
    (hfresh : ∀ c s co, e = .openConn c s co → s ≠ "" →
      s ∉ st.openConns.map Prod.snd ∧ c ∉ st.openConns.map Prod.fst) :
    RegInv (step st e) := by
  obtain ⟨hiff, hkeys, hsids, hcids⟩ := hinv
  cases e with
  | openConn c s co =>
    rcases eq_or_ne s "" with hse | hse
    · subst hse
      rw [step_open_noid]
      exact ⟨hiff, hkeys, hsids, hcids⟩
    · obtain ⟨hfs, hfc⟩ := hfresh c s co rfl hse
      rw [step_open_registered st c s co hse]
      refine ⟨fun s' => ?_, nodup_keys_mapSet _ _ _ hkeys, ?_, ?_⟩
      · simp only [mapGet_mapSet, List.map_cons, List.mem_cons]
        rcases eq_or_ne s' s with h2 | h2
        · subst h2; simp
        · simp [h2, hiff s']
      · simp only [List.map_cons, List.nodup_cons]
        exact ⟨hfs, hsids⟩
      · simp only [List.map_cons, List.nodup_cons]
        exact ⟨hfc, hcids⟩
  | disconnect c =>
    cases hl : lookupConn st.openConns c with
    | none =>
      simp only [step, hl]
      exact ⟨hiff, hkeys, hsids, hcids⟩
    | some s =>
      have hm : (c, s) ∈ st.openConns := lookupConn_mem _ _ _ hl
      simp only [step, hl]
      refine ⟨fun s' => ?_, nodup_keys_mapDelete _ _ hkeys, ?_, ?_⟩
      · rw [mapGet_mapDelete _ _ _ hkeys,
          mem_sids_removeConn st.openConns c s hcids hsids hm s']
        rcases eq_or_ne s' s with h2 | h2
        · subst h2; simp
        · simp [h2, hiff s']
      · exact hsids.sublist ((removeConn_sublist _ _).map Prod.snd)
      · exact hcids.sublist ((removeConn_sublist _ _).map Prod.fst)

theorem run_inv (es : List Event) : ∀ st : SrvState, RegInv st →
    (st.openConns.map Prod.snd ++ openSids es).Nodup →
    (st.openConns.map Prod.fst ++ openCids es).Nodup →
    RegInv (run st es) := by
  induction es with
  | nil => exact fun st h _ _ => h
  | cons e rest ih =>
    intro st hinv hns hnc
    rw [show run st (e :: rest) = run (step st e) rest from rfl]
    cases e with
    | openConn c s co =>
      rcases eq_or_ne s "" with hse | hse
      · subst hse
        rw [step_open_noid]
        refine ih st hinv ?_ ?_
        · simpa [openSids] using hns
        · simpa [openCids] using hnc
      · rw [show openSids (.openConn c s co :: rest) = s :: openSids rest by
            simp [openSids, hse]] at hns
        rw [show openCids (.openConn c s co :: rest) = c :: openCids rest by
            simp [openCids, hse]] at hnc
        have hns' : (s :: (st.openConns.map Prod.snd ++ openSids rest)).Nodup :=
          List.perm_middle.nodup hns
        have hnc' : (c :: (st.openConns.map Prod.fst ++ openCids rest)).Nodup :=
          List.perm_middle.nodup hnc
        simp only [List.nodup_cons, List.mem_append] at hns' hnc'
        have hstep := step_open_registered st c s co hse
        refine ih (step st (.openConn c s co)) (step_inv st _ hinv ?_) ?_ ?_
        · rintro c' s' co' he hse'
          cases he
          exact ⟨fun h2 => hns'.1 (Or.inl h2), fun h2 => hnc'.1 (Or.inl h2)⟩
        · rw [hstep]
          simp only [List.map_cons, List.cons_append, List.nodup_cons, List.mem_append]
          exact ⟨hns'.1, hns'.2⟩
        · rw [hstep]
          simp only [List.map_cons, List.cons_append, List.nodup_cons, List.mem_append]
          exact ⟨hnc'.1, hnc'.2⟩
    | disconnect c =>
      rw [show openSids (.disconnect c :: rest) = openSids rest by simp [openSids]] at hns
      rw [show openCids (.disconnect c :: rest) = openCids rest by simp [openCids]] at hnc
      refine ih (step st (.disconnect c))
        (step_inv st _ hinv (by rintro c' s' co' he hse'; cases he)) ?_ ?_
      · cases hl : lookupConn st.openConns c with
        | none =>
          simp only [step, hl]
          exact hns
        | some s =>
          simp only [step, hl]
          exact hns.sublist
            (((removeConn_sublist st.openConns c).map Prod.snd).append_right _)
      · cases hl : lookupConn st.openConns c with
        | none =>
          simp only [step, hl]
          exact hnc
        | some s =>
          simp only [step, hl]
          exact hnc.sublist
            (((removeConn_sublist st.openConns c).map Prod.fst).append_right _)

/-! ## Claim theorems -/

/-- Claim C1: for every sequence of connection-open and disconnect events
(with server-generated session identifiers, i.e. pairwise-distinct ids for
distinct connections), the registry's key set equals exactly the set of
session identifiers of connections that opened successfully (non-empty id)
and have not yet disconnected: no leaked entry after disconnect, no missing
entry while open. -/
theorem registry_keys_match_open_sessions (es : List Event) (s : SessionId)
    (hs : (openSids es).Nodup) (hc : (openCids es).Nodup) :
    ((mapGet (run initState es).registry s).isSome = true ↔
      s ∈ (run initState es).openConns.map Prod.snd) := by
  have h := run_inv es initState reginv_init
    (by simpa [initState] using hs) (by simpa [initState] using hc)
  exact h.1 s

/-- Witness for C1: a concrete trace — two opens and one disconnect — where
the invariant is checked at the surviving session id. -/
theorem registry_keys_match_open_sessions_witness :
    (openSids [Event.openConn 0 "a" ConnectOutcome.success,
      Event.openConn 1 "b" ConnectOutcome.success, Event.disconnect 0]).Nodup
    ∧ ((mapGet (run initState [Event.openConn 0 "a" ConnectOutcome.success,
          Event.openConn 1 "b" ConnectOutcome.success,
          Event.disconnect 0]).registry "b").isSome = true ↔
        "b" ∈ (run initState [Event.openConn 0 "a" ConnectOutcome.success,
          Event.openConn 1 "b" ConnectOutcome.success,
          Event.disconnect 0]).openConns.map Prod.snd) :=
  ⟨by decide,
   registry_keys_match_open_sessions
     [Event.openConn 0 "a" ConnectOutcome.success,
      Event.openConn 1 "b" ConnectOutcome.success, Event.disconnect 0]
     "b" (by decide) (by decide)⟩

/-- Claim C2: a POST whose `sessionId` is a non-empty string absent from
the registry yields a 404, invokes no transport method, and leaves the
registry unchanged. -/
theorem post_unknown_session_404 (reg : Registry) (s : String) (h : HpmOutcome)
    (hs : s ≠ "") (hmiss : mapGet reg s = none) :
    postHandler true reg (.strVal s) h =
      { responses := [.status 404], registry := reg, hpmCalls := [] } := by
  simp [postHandler, hs, hmiss]

/-- Witness for C2: a registry holding session `a` receives a POST for the
unknown session `b`. -/
theorem post_unknown_session_404_witness :
    postHandler true [("a", 0)] (.strVal "b") HpmOutcome.ok =
      { responses := [.status 404], registry := [("a", 0)], hpmCalls := [] } :=
  post_unknown_session_404 [("a", 0)] "b" HpmOutcome.ok (by decide) (by decide)

/-- Claim C3: a POST whose `sessionId` query parameter is missing or not a
string yields a 400, with no registry mutation and no transport-method
invocation; the response is produced before any registry lookup — it does
not depend on the registry contents at all. -/
theorem post_missing_sessionId_400 (reg reg' : Registry) (sid : QueryVal)
    (h h' : HpmOutcome)
    (hsid : sid = QueryVal.absent ∨ ∃ l, sid = QueryVal.arrVal l) :
    postHandler true reg sid h =
      { responses := [.status 400], registry := reg, hpmCalls := [] }
    ∧ (postHandler true reg sid h).responses = (postHandler true reg' sid h').responses := by
  rcases hsid with rfl | ⟨l, rfl⟩ <;> simp [postHandler]

/-- Witness for C3: a POST with no `sessionId` against a populated registry. -/
theorem post_missing_sessionId_400_witness :
    postHandler true [("a", 0)] QueryVal.absent HpmOutcome.ok =
      { responses := [.status 400], registry := [("a", 0)], hpmCalls := [] }
    ∧ (postHandler true [("a", 0)] QueryVal.absent HpmOutcome.ok).responses =
      (postHandler true [] QueryVal.absent (HpmOutcome.err true)).responses :=
  post_missing_sessionId_400 [("a", 0)] [] QueryVal.absent HpmOutcome.ok
    (HpmOutcome.err true) (Or.inl rfl)

/-- Claim C4: during shutdown every handle present in the registry at the
start receives exactly one close attempt, the registry is empty after the
drain, and the outcomes of the individual close calls (caught and logged
per handle) influence nothing. -/
theorem shutdown_drains_registry (reg : Registry) (mh : Bool)
    (ce ce' : ConnId → Bool) :
    (gracefulShutdown reg mh ce).closeAttempts = reg.map Prod.snd
    ∧ (gracefulShutdown reg mh ce).registry = []
    ∧ ((reg.map Prod.snd).Nodup → ∀ c ∈ reg.map Prod.snd,
        (gracefulShutdown reg mh ce).closeAttempts.count c = 1)
    ∧ gracefulShutdown reg mh ce = gracefulShutdown reg mh ce' := by
  refine ⟨rfl, rfl, fun hnd c hcmem => ?_, rfl⟩
  simpa [gracefulShutdown] using List.count_eq_one_of_mem hnd hcmem

/-- Witness for C4: a two-entry registry with one failing close. -/
theorem shutdown_drains_registry_witness :
    (gracefulShutdown [("a", 0), ("b", 1)] true
        (fun c => decide (c = 0))).closeAttempts.count 0 = 1
    ∧ (gracefulShutdown [("a", 0), ("b", 1)] true
        (fun c => decide (c = 0))).registry = [] :=
  ⟨(shutdown_drains_registry [("a", 0), ("b", 1)] true (fun c => decide (c = 0))
      (fun _ => false)).2.2.1 (by decide) 0 (by decide),
   (shutdown_drains_registry [("a", 0), ("b", 1)] true (fun c => decide (c = 0))
      (fun _ => false)).2.1⟩

/-- Claim C5 (code bug): the watchdog `setTimeout(..., 10000)` is reached
only after `await mcpServer.close()` resolves, so when the protocol-server
close never settles the shutdown sequence stalls with no watchdog armed and
the process never terminates — it does not exit with status 1 as the claim
(and the code's own "Force close after a timeout if graceful shutdown
hangs" comment) require. Once the protocol-server close resolves, the
watchdog does bound the remaining socket close: exit 0 when the socket
closes within the watchdog duration, exit 1 otherwise. -/
theorem shutdown_watchdog_behaviour :
    (∀ d : Option Nat, shutdownOutcome false d = ProcExit.hung)
    ∧ shutdownOutcome false none ≠ ProcExit.exited 1
    ∧ shutdownOutcome true none = ProcExit.exited 1
    ∧ (∀ t : Nat, shutdownOutcome true (some t) =
        ProcExit.exited (if t < watchdogDuration then 0 else 1)) := by
  refine ⟨fun d => rfl, by decide, rfl, fun t => ?_⟩
  by_cases h : t < watchdogDuration <;> simp [shutdownOutcome, h]

/-- Claim C6: when the transport was created, got a non-empty session id
and was registered, but `mcpServer.connect` throws, the error is caught, a
500 is sent iff no headers had been sent, the hook stays registered, and
the registry entry remains until the connection's disconnect event removes
it. -/
theorem bind_failure_entry_remains (reg : Registry) (c : ConnId) (s : SessionId)
    (hs : Bool) (hse : s ≠ "") (hkeys : (reg.map Prod.fst).Nodup) :
    (Resp.status 500 ∈ (getHandler true reg false c s (.failure hs)).responses ↔ hs = false)
    ∧ mapGet (getHandler true reg false c s (.failure hs)).registry s = some c
    ∧ (getHandler true reg false c s (.failure hs)).hookRegistered = true
    ∧ mapGet (step
        { registry := (getHandler true reg false c s (.failure hs)).registry,
          openConns := [(c, s)], closed := [] } (.disconnect c)).registry s = none := by
  have hg : getHandler true reg false c s (.failure hs) =
      { responses := if hs then [.delegated] else [.status 500],
        registry := mapSet reg s c, hookRegistered := true } := by
    simp [getHandler, hse]
  rw [hg]
  refine ⟨by cases hs <;> simp, ?_, rfl, ?_⟩
  · rw [mapGet_mapSet]
    simp
  · have hl : lookupConn [(c, s)] c = some s := by simp [lookupConn]
    simp only [step, hl]
    rw [mapGet_mapDelete _ _ _ (nodup_keys_mapSet _ _ _ hkeys)]
    simp

/-- Witness for C6: a failed bind (headers unsent) for session `a` on a
registry already holding session `x`. -/
theorem bind_failure_entry_remains_witness :
    (Resp.status 500 ∈ (getHandler true [("x", 5)] false 0 "a" (.failure false)).responses
      ↔ false = false)
    ∧ mapGet (getHandler true [("x", 5)] false 0 "a" (.failure false)).registry "a" = some 0
    ∧ (getHandler true [("x", 5)] false 0 "a" (.failure false)).hookRegistered = true
    ∧ mapGet (step
        { registry := (getHandler true [("x", 5)] false 0 "a" (.failure false)).registry,
          openConns := [(0, "a")], closed := [] } (.disconnect 0)).registry "a" = none :=
  bind_failure_entry_remains [("x", 5)] 0 "a" false (by decide) (by decide)

/-- Claim C7: on every execution path of the SSE endpoint, the messages
endpoint and the global error handler, at most one HTTP response is sent
per request. -/
theorem at_most_one_response_per_request :
    (∀ (m : Bool) (reg : Registry) (ct : Bool) (c : ConnId) (s : SessionId)
        (co : ConnectOutcome), (getHandler m reg ct c s co).responses.length ≤ 1)
    ∧ (∀ (m : Bool) (reg : Registry) (sid : QueryVal) (h : HpmOutcome),
        (postHandler m reg sid h).responses.length ≤ 1)
    ∧ (∀ hs : Bool, (globalErrorHandler hs).length ≤ 1) := by
  refine ⟨fun m reg ct c s co => ?_, fun m reg sid h => ?_, fun hs => ?_⟩
  · cases co with
    | success =>
      cases m <;> cases ct <;> by_cases hse : s = "" <;> simp [getHandler, hse]
    | failure hsf =>
      cases m <;> cases ct <;> cases hsf <;> by_cases hse : s = "" <;>
        simp [getHandler, hse]
  · cases sid with
    | absent => cases m <;> simp [postHandler]
    | arrVal l => cases m <;> simp [postHandler]
    | strVal s =>
      cases m
      · simp [postHandler]
      · by_cases hse : s = "" <;> simp [postHandler, hse]
        cases hg : mapGet reg s with
        | none => simp
        | some c =>
          cases h with
          | ok => simp
          | err hsf => cases hsf <;> simp
  · cases hs <;> simp [globalErrorHandler]

/-- Counterexample for C8: the signal handlers are registered as
`process.on(SIGINT, gracefulShutdown)` with no re-entry guard, so a second
termination signal re-runs `gracefulShutdown`: on the concrete one-entry
registry, the second run schedules one more watchdog timer and re-invokes
the protocol-server close and the listening-socket close — contradicting
"no extra timers, no repeated shutdown steps". -/
theorem second_signal_repeats_steps :
    (twoSignals [("a", 0)] true (fun _ => false)).2.watchdogsSet = 1
    ∧ (twoSignals [("a", 0)] true (fun _ => false)).2.mcpCloseCalled = true
    ∧ (twoSignals [("a", 0)] true (fun _ => false)).2.httpCloseCalled = true :=
  ⟨rfl, rfl, rfl⟩

/-- Claim C8 (amended): a second termination signal during shutdown issues
no additional transport close attempts (the registry was already drained by
the first signal's synchronous prefix) and the process never returns to
Running, but it does re-run the rest of the shutdown sequence: the
protocol-server close and the socket close are repeated and one additional
watchdog timer is scheduled. -/
theorem second_signal_behaviour (reg : Registry) (mh : Bool) (ce : ConnId → Bool) :
    (twoSignals reg mh ce).2.closeAttempts = []
    ∧ (twoSignals reg mh ce).2.registry = []
    ∧ (twoSignals reg mh ce).2.watchdogsSet = 1
    ∧ (twoSignals reg mh ce).2.httpCloseCalled = true
    ∧ (twoSignals reg mh ce).2.mcpCloseCalled = mh := by
  refine ⟨?_, rfl, rfl, rfl, rfl⟩
  simp [twoSignals, gracefulShutdown]

/-- Counterexample for C9: with the environment read-only flag present as
`false` and the CLI flag `--read-only` given, the effective value is the
CLI's `true`, not the environment's `false` — the environment value does
not take precedence for the read-only option. -/
theorem readonly_env_not_precedent :
    resolveReadOnly (some "false") true = true
    ∧ envReadOnly (some "false") = false := by
  constructor <;> decide

/-- Claim C9 (amended): environment values take precedence over
command-line values for the string options (access token, project
identifier, API URL) via `??`, and for the read-only flag only when the
environment value is exactly `true`; any other present environment value
defers to the command-line value. -/
theorem env_precedence_amended :
    (∀ (e : String) (c : Option String), resolveStringOpt (some e) c = some e)
    ∧ (∀ c : Bool, resolveReadOnly (some "true") c = true)
    ∧ (∀ (e : String) (c : Bool), e ≠ "true" → resolveReadOnly (some e) c = c) := by
  refine ⟨fun e c => rfl, fun c => by simp [resolveReadOnly], fun e c he => ?_⟩
  simp [resolveReadOnly, he]

/-- Witness for C9 (amended): concrete env/CLI pairs for each conjunct. -/
theorem env_precedence_amended_witness :
    resolveStringOpt (some "tok-env") (some "tok-cli") = some "tok-env"
    ∧ resolveReadOnly (some "true") false = true
    ∧ resolveReadOnly (some "false") false = false :=
  ⟨env_precedence_amended.1 "tok-env" (some "tok-cli"),
   env_precedence_amended.2.1 false,
   env_precedence_amended.2.2 "false" false (by decide)⟩

/-- Claim C10: if two stream opens produce the same session id, the second
`Map.set` overwrites the first handle's entry without closing the first
handle; POSTs with that id then reach only the second handle. The
disconnect hook of either connection deletes the single shared entry and
closes only its own handle, leaving the other connection open but
unreachable (POSTs with the id return 404), its handle never closed
through the registry. -/
theorem duplicate_session_overwrite (c1 c2 : ConnId) (s : SessionId) (h : HpmOutcome)
    (hse : s ≠ "") (hc : c1 ≠ c2) :
    mapGet (run initState [Event.openConn c1 s ConnectOutcome.success,
      Event.openConn c2 s ConnectOutcome.success]).registry s = some c2
    ∧ (run initState [Event.openConn c1 s ConnectOutcome.success,
        Event.openConn c2 s ConnectOutcome.success]).closed = []
    ∧ (postHandler true (run initState [Event.openConn c1 s ConnectOutcome.success,
        Event.openConn c2 s ConnectOutcome.success]).registry
        (.strVal s) h).hpmCalls = [c2]
    ∧ (run initState [Event.openConn c1 s ConnectOutcome.success,
        Event.openConn c2 s ConnectOutcome.success,
        Event.disconnect c1]).registry = []
    ∧ (run initState [Event.openConn c1 s ConnectOutcome.success,
        Event.openConn c2 s ConnectOutcome.success,
        Event.disconnect c1]).closed = [c1]
    ∧ (run initState [Event.openConn c1 s ConnectOutcome.success,
        Event.openConn c2 s ConnectOutcome.success,
        Event.disconnect c1]).openConns = [(c2, s)]
    ∧ (postHandler true (run initState [Event.openConn c1 s ConnectOutcome.success,
        Event.openConn c2 s ConnectOutcome.success,
        Event.disconnect c1]).registry (.strVal s) h).responses = [.status 404]
    ∧ (run initState [Event.openConn c1 s ConnectOutcome.success,
        Event.openConn c2 s ConnectOutcome.success,
        Event.disconnect c2]).registry = []
    ∧ (run initState [Event.openConn c1 s ConnectOutcome.success,
        Event.openConn c2 s ConnectOutcome.success,
        Event.disconnect c2]).closed = [c2]
    ∧ (run initState [Event.openConn c1 s ConnectOutcome.success,
        Event.openConn c2 s ConnectOutcome.success,
        Event.disconnect c2]).openConns = [(c1, s)]
    ∧ (postHandler true (run initState [Event.openConn c1 s ConnectOutcome.success,
        Event.openConn c2 s ConnectOutcome.success,
        Event.disconnect c2]).registry (.strVal s) h).responses = [.status 404] := by
  have h2 : run initState [Event.openConn c1 s ConnectOutcome.success,
      Event.openConn c2 s ConnectOutcome.success] =
      { registry := [(s, c2)], openConns := [(c2, s), (c1, s)], closed := [] } := by
    simp [run, step, getHandler, mapSet, initState, hse]
  have hA : run initState [Event.openConn c1 s ConnectOutcome.success,
      Event.openConn c2 s ConnectOutcome.success, Event.disconnect c1] =
      { registry := [], openConns := [(c2, s)], closed := [c1] } := by
    show step (run initState [Event.openConn c1 s ConnectOutcome.success,
      Event.openConn c2 s ConnectOutcome.success]) (Event.disconnect c1) = _
    rw [h2]
    simp [step, lookupConn, removeConn, mapDelete, Ne.symm hc]
  have hB : run initState [Event.openConn c1 s ConnectOutcome.success,
      Event.openConn c2 s ConnectOutcome.success, Event.disconnect c2] =
      { registry := [], openConns := [(c1, s)], closed := [c2] } := by
    show step (run initState [Event.openConn c1 s ConnectOutcome.success,
      Event.openConn c2 s ConnectOutcome.success]) (Event.disconnect c2) = _
    rw [h2]
    simp [step, lookupConn, removeConn, mapDelete, hc]
  rw [h2, hA, hB]
  refine ⟨by simp [mapGet], rfl, ?_, rfl, rfl, rfl, ?_, rfl, rfl, rfl, ?_⟩
  · cases h <;> simp [postHandler, mapGet, hse]
  · simp [postHandler, mapGet, hse]
  · simp [postHandler, mapGet, hse]

/-- Witness for C10: connections 0 and 1 sharing session id `a`. -/
theorem duplicate_session_overwrite_witness :
    mapGet (run initState [Event.openConn 0 "a" ConnectOutcome.success,
      Event.openConn 1 "a" ConnectOutcome.success]).registry "a" = some 1
    ∧ (run initState [Event.openConn 0 "a" ConnectOutcome.success,
        Event.openConn 1 "a" ConnectOutcome.success]).closed = []
    ∧ (postHandler true (run initState [Event.openConn 0 "a" ConnectOutcome.success,
        Event.openConn 1 "a" ConnectOutcome.success]).registry
        (.strVal "a") HpmOutcome.ok).hpmCalls = [1]
    ∧ (run initState [Event.openConn 0 "a" ConnectOutcome.success,
        Event.openConn 1 "a" ConnectOutcome.success,
        Event.disconnect 0]).registry = []
    ∧ (run initState [Event.openConn 0 "a" ConnectOutcome.success,
        Event.openConn 1 "a" ConnectOutcome.success,
        Event.disconnect 0]).closed = [0]
    ∧ (run initState [Event.openConn 0 "a" ConnectOutcome.success,
        Event.openConn 1 "a" ConnectOutcome.success,
        Event.disconnect 0]).openConns = [(1, "a")]
    ∧ (postHandler true (run initState [Event.openConn 0 "a" ConnectOutcome.success,
        Event.openConn 1 "a" ConnectOutcome.success,
        Event.disconnect 0]).registry (.strVal "a") HpmOutcome.ok).responses = [.status 404]
    ∧ (run initState [Event.openConn 0 "a" ConnectOutcome.success,
        Event.openConn 1 "a" ConnectOutcome.success,
        Event.disconnect 1]).registry = []
    ∧ (run initState [Event.openConn 0 "a" ConnectOutcome.success,
        Event.openConn 1 "a" ConnectOutcome.success,
        Event.disconnect 1]).closed = [1]
    ∧ (run initState [Event.openConn 0 "a" ConnectOutcome.success,
        Event.openConn 1 "a" ConnectOutcome.success,
        Event.disconnect 1]).openConns = [(0, "a")]
    ∧ (postHandler true (run initState [Event.openConn 0 "a" ConnectOutcome.success,
        Event.openConn 1 "a" ConnectOutcome.success,
        Event.disconnect 1]).registry (.strVal "a") HpmOutcome.ok).responses = [.status 404] :=
  duplicate_session_overwrite 0 1 "a" HpmOutcome.ok (by decide) (by decide)
